import Mathlib

/-!
Verification of the comfyui-provisioner orchestration engine (src/utils.ts,
src/types.ts).  The TypeScript source is shallowly embedded: JSON records
become structures, JavaScript numbers used as byte counts become `Nat`,
currency and rate values become `ℚ`, fallible `fetch` calls become
`Except`-valued inputs, and `process.exit(n)` is modelled as an `Except`
error carrying the exit code.
-/

namespace ComfyProvisioner

/-- Run modes, from `enum RunType` in src/types.ts. -/
inductive RunType
  | ssh
  | jupyter
  | args
deriving DecidableEq

/-- The derived pricing sub-record `Offer.search` from src/types.ts. -/
structure SearchPricing where
  gpuCostPerHour : ℚ
  diskHour : ℚ
  totalHour : ℚ
deriving DecidableEq

/-- One marketplace offer, from `type Offer` in src/types.ts. -/
structure Offer where
  direct_port_count : Nat
  disk_bw : ℚ
  dlperf_per_dphtotal : ℚ
  end_date : Nat
  geolocation : String
  gpu_name : String
  gpu_ram : ℚ
  id : Nat
  inet_down : ℚ
  search : SearchPricing
deriving DecidableEq

/-- An add-on module, from `type Module` in src/types.ts.  The
`ModuleDependencies` record (`Partial<Record<string, string[]>>`) is
embedded as an association list from category key to URL list. -/
structure Module where
  description : String
  files : List (String × List String)
  name : String
  template : String
deriving DecidableEq

/-- A deployment template, from `type Template` in src/types.ts. -/
structure Template where
  description : Option String
  environment : List (String × String)
  fileTypes : List String
  hash : Option String
  name : String
  runType : Option RunType
  script : Option String
  size : Nat
  tag : Option String
deriving DecidableEq

/-- A module after the sizing pass of `chooseModules` attached
`module.fileSizes` (a JS `Map`, embedded as an insertion-ordered
association list) and `module.totalSize` to it. -/
structure SizedModule where
  module : Module
  fileSizes : List (String × Nat)
  totalSize : Nat
deriving DecidableEq

/-- JS `Map.set`: overwrite the value at an existing key in place,
otherwise append the new binding at the end. -/
def mapSet (m : List (String × Nat)) (k : String) (v : Nat) : List (String × Nat) :=
  if m.any (fun p => p.1 == k) then
    m.map (fun p => if p.1 == k then (k, v) else p)
  else
    m ++ [(k, v)]

/-- Embedding of `getUrlSize` (src/utils.ts lines 618-622): `fetch` the URL — the
argument models the fetch result, `Except.error` being a thrown network
error — and parse the `Content-Length` header, an absent header being
read as `'0'`.  A thrown fetch propagates to the caller. -/
def getUrlSize (fetchResult : Except Unit (Option Nat)) : Except Unit Nat :=
  match fetchResult with
  | .error e => .error e
  | .ok none => .ok 0
  | .ok (some n) => .ok n

/-- The inner sizing loop of `chooseModules` (src/utils.ts lines 701-706)
over the URLs of one category: probe each URL, record it in `fileSizes`
and add it to `totalSize`; a thrown probe propagates. -/
def sizeUrls (probe : String → Except Unit (Option Nat)) :
    List String → List (String × Nat) → Nat → Except Unit (List (String × Nat) × Nat)
  | [], fs, tot => .ok (fs, tot)
  | u :: us, fs, tot =>
    match getUrlSize (probe u) with
    | .error e => .error e
    | .ok n => sizeUrls probe us (mapSet fs u n) (tot + n)

/-- The outer sizing loop of `chooseModules` (src/utils.ts lines 700-707)
over `Object.entries(module.files)`. -/
def sizeCategories (probe : String → Except Unit (Option Nat)) :
    List (String × List String) → List (String × Nat) → Nat →
    Except Unit (List (String × Nat) × Nat)
  | [], fs, tot => .ok (fs, tot)
  | (_, urls) :: rest, fs, tot =>
    match sizeUrls probe urls fs tot with
    | .error e => .error e
    | .ok (fs2, tot2) => sizeCategories probe rest fs2 tot2

/-- Sizing one module: `module.fileSizes = new Map(); module.totalSize = 0`
followed by the nested loops (src/utils.ts lines 697-707). -/
def sizeModule (probe : String → Except Unit (Option Nat)) (m : Module) :
    Except Unit SizedModule :=
  match sizeCategories probe m.files [] 0 with
  | .error e => .error e
  | .ok (fs, tot) => .ok ⟨m, fs, tot⟩

/-- The choice-list construction of `chooseModules` (src/utils.ts lines
690-717): a module whose `template` field differs from the chosen
template name is mapped to `[]` before any probe runs; applicable
modules are sized.  Matches the `flatMap`/`Promise.all`/`flat` pipeline. -/
def moduleChoices (t : Template) (probe : String → Except Unit (Option Nat)) :
    List Module → Except Unit (List SizedModule)
  | [] => .ok []
  | m :: rest =>
    if m.template ≠ t.name then
      moduleChoices t probe rest
    else
      match sizeModule probe m with
      | .error e => .error e
      | .ok sm =>
        match moduleChoices t probe rest with
        | .error e => .error e
        | .ok sms => .ok (sm :: sms)

/-- Embedding of `chooseModules` up to (and excluding) the interactive checkbox: the
surrounding `try`/`catch` turns any thrown error into `console.error`
plus `process.exit(1)`, modelled as `Except.error 1` (the exit code). -/
def chooseModulesResult (t : Template) (mods : List Module)
    (probe : String → Except Unit (Option Nat)) : Except Nat (List SizedModule) :=
  match moduleChoices t probe mods with
  | .error _ => .error 1
  | .ok cs => .ok cs

/-- Embedding of `Math.ceil(n / 1e9) * 1e9` on an exact byte count `n : Nat`
(src/utils.ts lines 906-909): round up to the next whole multiple of
10^9 bytes. -/
def roundUpToGB (n : Nat) : Nat :=
  ((n + (10 ^ 9 - 1)) / 10 ^ 9) * 10 ^ 9

/-- One step of the disk-size deduplication loop of `provision`
(src/utils.ts lines 896-903): the accumulator is `(seenUrls,
diskSizeBytes)`; a URL already in `seenUrls` is skipped, a new URL is
pushed and its size added. -/
def dedupStep (acc : List String × Nat) (p : String × Nat) : List String × Nat :=
  if p.1 ∈ acc.1 then acc else (acc.1 ++ [p.1], acc.2 + p.2)

/-- The resolved-disk-size computation of `provision` (src/utils.ts lines
890-909): start from the template base size, add each selected
module probed per-URL sizes deduplicating globally by URL, then round
up to the next gigabyte.  The argument is the list of `fileSizes` maps
of the selected modules. -/
def resolveDiskSize (base : Nat) (fileSizesList : List (List (String × Nat))) : Nat :=
  let diskSizeBytes :=
    if fileSizesList ≠ [] then
      (fileSizesList.foldl (fun acc fs => fs.foldl dedupStep acc) ([], base)).2
    else base
  roundUpToGB diskSizeBytes

/-- First-occurrence deduplication with an explicit seen set (the
semantics of the `seenUrls` loop and of lodash `uniq`). -/
def firstDedupAux (seen : List String) : List String → List String
  | [] => []
  | u :: us =>
    if u ∈ seen then firstDedupAux seen us
    else u :: firstDedupAux (u :: seen) us

/-- Deduplicate a list of URLs, keeping the first occurrence of each. -/
def firstDedup (l : List String) : List String :=
  firstDedupAux [] l

/-- Modelled from the spec: the claimed resolved disk size — template
base size plus the probed sizes of the distinct resource URLs across all
selected modules (each URL counted once), rounded up to the next whole
multiple of 10^9 bytes. -/
def specDiskSize (sizeOf : String → Nat) (base : Nat) (urlLists : List (List String)) : Nat :=
  roundUpToGB (base + ((firstDedup urlLists.flatten).map sizeOf).sum)

/-- Embedding of `formatBashArray` (src/utils.ts lines 612-613): one quoted,
four-space-indented element per line. -/
def formatBashArray (items : List String) : String :=
  String.intercalate "\n" (items.map (fun item => "    \"" ++ item ++ "\""))

/-- Whether `pat` is a character-wise prefix of `s`. -/
def isPrefixOfList (pat s : List Char) : Bool :=
  match pat, s with
  | [], _ => true
  | _ :: _, [] => false
  | p :: ps, c :: cs => p == c && isPrefixOfList ps cs

/-- Replace the first occurrence of `pat` in the character list `s` by
`rep` (the semantics of JavaScript `String.prototype.replace` with a
string pattern).  An empty pattern matches at position zero, as in JS. -/
def replaceFirstAux (pat rep : List Char) : List Char → List Char
  | [] => if isPrefixOfList pat [] then rep else []
  | c :: cs =>
    if isPrefixOfList pat (c :: cs) then rep ++ (c :: cs).drop pat.length
    else c :: replaceFirstAux pat rep cs

/-- JS `s.replace(pat, rep)` for a string pattern: first occurrence only. -/
def replaceFirst (s pat rep : String) : String :=
  String.mk (replaceFirstAux pat.data rep.data s.data)

/-- Whether `pat` occurs as a substring of `s`. -/
def hasSubstringList (pat : List Char) : List Char → Bool
  | [] => isPrefixOfList pat []
  | c :: cs => isPrefixOfList pat (c :: cs) || hasSubstringList pat cs

/-- Embedding of `module.files[key] ?? []` (src/utils.ts line 791). -/
def lookupFiles (m : Module) (k : String) : List String :=
  match m.files.find? (fun p => p.1 == k) with
  | some p => p.2
  | none => []

/-- The per-key merge of `getScriptUrl` (src/utils.ts lines 783-794):
`sumModule[key]` starts `[]` and for each module becomes
`uniq([...sumModule[key], ...(module.files[key] ?? [])])`; lodash `uniq`
keeps first occurrences. -/
def sumModuleKey (mods : List Module) (k : String) : List String :=
  mods.foldl (fun acc m => firstDedup (acc ++ lookupFiles m k)) []

/-- JS `key.toUpperCase()` for the ASCII category keys used by the
templates, character by character. -/
def toUpperCase (k : String) : String :=
  String.mk (k.data.map Char.toUpper)

/-- The literal placeholder token for a category key: two opening braces,
a space, the key upper-cased, a space, two closing braces
(src/utils.ts line 802). -/
def placeholderFor (k : String) : String :=
  "\x7b\x7b " ++ toUpperCase k ++ " \x7d\x7d"

/-- Whether the script still contains the literal placeholder token for
category key `k`. -/
def containsPlaceholder (s : String) (k : String) : Bool :=
  hasSubstringList (placeholderFor k).data s.data

/-- One iteration of the substitution loop of `getScriptUrl`
(src/utils.ts lines 796-805): a key whose merged list is empty is
skipped (`continue`), otherwise the first occurrence of its placeholder is
replaced by the formatted Bash array. -/
def substituteKey (mods : List Module) (script : String) (k : String) : String :=
  if (sumModuleKey mods k).length = 0 then script
  else replaceFirst script (placeholderFor k) (formatBashArray (sumModuleKey mods k))

/-- The script-materialization part of `getScriptUrl` (src/utils.ts lines
781-806): the whole substitution block is guarded by
`template.fileTypes.length && modules.length`. -/
def substitutePlaceholders (t : Template) (mods : List Module) (script : String) : String :=
  if t.fileTypes ≠ [] ∧ mods ≠ [] then
    t.fileTypes.foldl (substituteKey mods) script
  else script

/-- A received HTTP response (no exception thrown by `fetch`). -/
structure HttpResponse where
  ok : Bool
  status : Nat
  text : String
deriving DecidableEq

/-- The publish step of `getScriptUrl` (src/utils.ts lines 808-828): the
paste-service `fetch` either throws (caught by the surrounding
`try`/`catch`, which reports and calls `process.exit(1)`, modelled as
`Except.error 1`) or yields a response whose body text — never its
status — is rewritten from the share-page URL form to the raw-content
form and returned. -/
def publishScript (fetchResult : Except Unit HttpResponse) : Except Nat String :=
  match fetchResult with
  | .error _ => .error 1
  | .ok resp => .ok (replaceFirst resp.text "pastebin.com/" "pastebin.com/raw/")

/-- ASCII decimal digit, the `[0-9]` character class. -/
def isAsciiDigit (c : Char) : Bool :=
  '0' ≤ c && c ≤ '9'

/-- The ASCII portion of the `\s` character class used by the denylist
regex. -/
def isJsWhitespace (c : Char) : Bool :=
  c == ' ' || c == '\t' || c == '\n' || c == '\r' || c == '\x0b' || c == '\x0c'

/-- After a literal `rtx`, match `\s*5[0-9]{3}`. -/
def rtxTail (cs : List Char) : Bool :=
  match cs.dropWhile isJsWhitespace with
  | '5' :: a :: b :: c :: _ => isAsciiDigit a && isAsciiDigit b && isAsciiDigit c
  | _ => false

/-- Search for a match of `rtx\s*5[0-9]{3}` starting at any position of
an (already lower-cased) character list. -/
def rtxSearch : List Char → Bool
  | [] => false
  | c :: cs =>
    (c == 'r' &&
      match cs with
      | 't' :: 'x' :: rest => rtxTail rest
      | _ => false) ||
    rtxSearch cs

/-- The denylist regex `rtx5000Regex = /rtx\s*5[0-9]{3}/i`
(src/utils.ts line 605) applied via `.test`. -/
def rtx5000Test (s : String) : Bool :=
  rtxSearch (s.data.map Char.toLower)

/-- The client-side post-filtering of `formatOffers` (src/utils.ts lines
843-845): drop offers whose GPU name matches the denylist regex, then
drop offers whose catalog-reported `search.totalHour` exceeds the
maximum hourly cost given by the caller. -/
def filterOffers (maxHourlyCost : ℚ) (offers : List Offer) : List Offer :=
  (offers.filter (fun o => !rtx5000Test o.gpu_name)).filter
    (fun o => decide (o.search.totalHour ≤ maxHourlyCost))

/-- Embedding of `hourlyDiskCost` (src/utils.ts line 911): the per-ten-GB disk
hourly rate scaled to the resolved disk size in bytes. -/
def hourlyDiskCost (o : Offer) (diskSizeBytes : ℚ) : ℚ :=
  o.search.diskHour * (diskSizeBytes / 10 ^ 10)

/-- The running-rate component of the confirmation message
(src/utils.ts line 912): compute cost plus disk cost. -/
def runningHourlyCost (o : Offer) (diskSizeBytes : ℚ) : ℚ :=
  o.search.gpuCostPerHour + hourlyDiskCost o diskSizeBytes

/-- The stopped-rate component of the confirmation message
(src/utils.ts line 913): disk cost only. -/
def stoppedHourlyCost (o : Offer) (diskSizeBytes : ℚ) : ℚ :=
  hourlyDiskCost o diskSizeBytes

/-- JS truthiness of an optional string: `undefined` and the empty string
are falsy. -/
def jsTruthyStr : Option String → Bool
  | none => false
  | some s => !(s == "")

/-- The deployment creation payload assembled by `provision`
(src/utils.ts lines 951-964). -/
structure DeployRequest where
  extra_env : List (String × String)
  runtype : RunType
  disk : ℚ
  target_state : String
  cancel_unavail : Bool
  vm : Bool
  template_hash_id : Option String
  image : Option String
deriving DecidableEq

/-- The request builder (src/utils.ts lines 951-964): fixed policy
fields, then `if (templateInfo.hash) ... else if (templateInfo.tag) ...`
— no error is raised in any case. -/
def buildRequest (t : Template) (envVars : List (String × String)) (diskSizeBytes : Nat) :
    DeployRequest :=
  let base : DeployRequest := {
    extra_env := envVars
    runtype := t.runType.getD RunType.jupyter
    disk := (diskSizeBytes : ℚ) / 10 ^ 9
    target_state := "running"
    cancel_unavail := true
    vm := false
    template_hash_id := none
    image := none }
  if jsTruthyStr t.hash then { base with template_hash_id := t.hash }
  else if jsTruthyStr t.tag then { base with image := t.tag }
  else base

/-- JS truthiness of `result.new_contract` (absent or zero is falsy). -/
def jsFalsyContract : Option Nat → Bool
  | none => true
  | some n => n == 0

/-- The observable outcome of one signal handler run: how many network
requests it issued, the exit status, and the message it printed. -/
structure HandlerOutcome where
  networkCalls : Nat
  exitCode : Nat
  message : String
deriving DecidableEq

/-- The SIGQUIT (stop) handler (src/utils.ts lines 988-1011): with no
contract id held it reports and exits 0 without any network call;
otherwise it issues the stop request, exiting 0 on success and 1 if the
call threw. -/
def stopHandler (newContract : Option Nat) (callResult : Except Unit Unit) : HandlerOutcome :=
  if jsFalsyContract newContract then
    ⟨0, 0, "No instance to stop! Exiting..."⟩
  else
    match callResult with
    | .ok _ =>
      ⟨1, 0, "Instance " ++ toString (newContract.getD 0) ++ " stopped! Exiting..."⟩
    | .error _ => ⟨1, 1, "error"⟩

/-- The SIGINT (destroy) handler (src/utils.ts lines 1013-1033): same
guard, issuing a delete request instead. -/
def destroyHandler (newContract : Option Nat) (callResult : Except Unit Unit) : HandlerOutcome :=
  if jsFalsyContract newContract then
    ⟨0, 0, "No instance to destroy! Exiting..."⟩
  else
    match callResult with
    | .ok _ =>
      ⟨1, 0, "Instance " ++ toString (newContract.getD 0) ++ " destroyed! Exiting..."⟩
    | .error _ => ⟨1, 1, "error"⟩

/-! Helper lemmas. -/

/-- Replacing the seen set of `firstDedupAux` by one with the same
members does not change the result. -/
lemma firstDedupAux_congr (l : List String) :
    ∀ s₁ s₂ : List String, (∀ x, x ∈ s₁ ↔ x ∈ s₂) →
      firstDedupAux s₁ l = firstDedupAux s₂ l := by
  induction l with
  | nil => intro _ _ _; rfl
  | cons u us ih =>
    intro s₁ s₂ h
    simp only [firstDedupAux]
    by_cases hu : u ∈ s₁
    · rw [if_pos hu, if_pos ((h u).mp hu)]
      exact ih s₁ s₂ h
    · rw [if_neg hu, if_neg (fun hc => hu ((h u).mpr hc))]
      have := ih (u :: s₁) (u :: s₂) (fun x => by simp [h x])
      rw [this]

/-- The `seenUrls` fold of `provision` computes, on top of any starting
accumulator, exactly the first-occurrence-deduplicated URLs and the sum
of their probed sizes. -/
lemma foldl_dedupStep (sizeOf : String → Nat) :
    ∀ (pairs : List (String × Nat)) (seen : List String) (tot : Nat),
      (∀ p ∈ pairs, p.2 = sizeOf p.1) →
      pairs.foldl dedupStep (seen, tot) =
        (seen ++ firstDedupAux seen (pairs.map Prod.fst),
         tot + ((firstDedupAux seen (pairs.map Prod.fst)).map sizeOf).sum) := by
  intro pairs
  induction pairs with
  | nil => intro seen tot _; simp [firstDedupAux]
  | cons p rest ih =>
    intro seen tot h
    obtain ⟨u, s⟩ := p
    have hs : s = sizeOf u := h (u, s) (List.mem_cons_self _ _)
    have hrest : ∀ q ∈ rest, q.2 = sizeOf q.1 := fun q hq => h q (List.mem_cons_of_mem _ hq)
    simp only [List.foldl_cons, List.map_cons, firstDedupAux, dedupStep]
    by_cases hu : u ∈ seen
    · rw [if_pos hu, if_pos hu]
      exact ih seen tot hrest
    · rw [if_neg hu, if_neg hu]
      rw [ih (seen ++ [u]) (tot + s) hrest]
      rw [firstDedupAux_congr (rest.map Prod.fst) (seen ++ [u]) (u :: seen)
        (fun x => by simp [or_comm])]
      simp [hs, List.append_assoc, Nat.add_assoc]

/-- The nested per-module fold of the disk sizing loop equals a single
fold over the concatenation of all `fileSizes` maps. -/
lemma foldl_nested_eq_flatten (L : List (List (String × Nat))) :
    ∀ acc : List String × Nat,
      L.foldl (fun acc fs => fs.foldl dedupStep acc) acc = L.flatten.foldl dedupStep acc := by
  induction L with
  | nil => intro _; rfl
  | cons fs rest ih =>
    intro acc
    simp only [List.foldl_cons, List.flatten_cons, List.foldl_append]
    exact ih _

/-- C1: for every template and every set of selected modules whose
per-URL byte sizes have been probed (each recorded size agreeing with
the per-URL probe result `sizeOf`), the resolved disk size equals the
template base byte size plus the sum of the probed sizes of the distinct
resource URLs across all selected modules — a URL occurring in two or
more modules is counted exactly once — rounded up to the next whole
multiple of 10^9 bytes. -/
theorem C1_resolveDiskSize_eq_specDiskSize
    (base : Nat) (mods : List (List (String × Nat))) (sizeOf : String → Nat)
    (h : ∀ fs ∈ mods, ∀ p ∈ fs, p.2 = sizeOf p.1) :
    resolveDiskSize base mods =
      specDiskSize sizeOf base (mods.map (fun fs => fs.map Prod.fst)) := by
  unfold resolveDiskSize specDiskSize
  by_cases hm : mods = []
  · subst hm
    simp [firstDedup, firstDedupAux]
  · rw [if_pos hm]
    rw [foldl_nested_eq_flatten mods ([], base)]
    have hflat : ∀ p ∈ mods.flatten, p.2 = sizeOf p.1 := by
      intro p hp
      obtain ⟨fs, hfs, hpfs⟩ := List.mem_flatten.mp hp
      exact h fs hfs p hpfs
    rw [foldl_dedupStep sizeOf mods.flatten [] base hflat]
    have hmap : mods.flatten.map Prod.fst =
        (mods.map (fun fs => fs.map Prod.fst)).flatten := by
      rw [List.map_flatten]
    rw [firstDedup, hmap]

/-- Witness for C1: the spec scenario — base size 10 GB, one module with
a single 2.5 GB resource — resolves to 13 GB. -/
theorem C1_witness :
    (∀ fs ∈ [[("u", 2500000000)]], ∀ p ∈ fs, p.2 = (fun _ : String => 2500000000) p.1) ∧
    resolveDiskSize (10 ^ 10) [[("u", 2500000000)]] =
      specDiskSize (fun _ : String => 2500000000) (10 ^ 10)
        ([[("u", 2500000000)]].map (fun fs => fs.map Prod.fst)) :=
  ⟨by decide, C1_resolveDiskSize_eq_specDiskSize (10 ^ 10) [[("u", 2500000000)]]
    (fun _ => 2500000000) (by decide)⟩

/-- C9: for every offer and resolved disk byte size, the disk hourly
cost is the per-ten-GB disk rate scaled by the size over 10^10, the
running hourly cost adds the compute hourly cost, the stopped hourly
cost is the disk cost alone, and hence running minus stopped equals the
compute hourly cost. -/
theorem C9_costModel (o : Offer) (d : ℚ) :
    hourlyDiskCost o d = o.search.diskHour * (d / 10 ^ 10) ∧
    runningHourlyCost o d = o.search.gpuCostPerHour + hourlyDiskCost o d ∧
    stoppedHourlyCost o d = hourlyDiskCost o d ∧
    runningHourlyCost o d - stoppedHourlyCost o d = o.search.gpuCostPerHour := by
  refine ⟨rfl, rfl, rfl, ?_⟩
  simp [runningHourlyCost, stoppedHourlyCost]

/-- C7: with no contract identifier held, both the stop handler and the
destroy handler issue zero network calls, report that there is nothing
to stop or destroy, and exit with status 0, whatever the (never issued)
remote call would have returned. -/
theorem C7_handlers_idempotent (r : Except Unit Unit) :
    stopHandler none r = ⟨0, 0, "No instance to stop! Exiting..."⟩ ∧
    destroyHandler none r = ⟨0, 0, "No instance to destroy! Exiting..."⟩ :=
  ⟨rfl, rfl⟩

/-- Substitution keys whose merged URL list is empty are skipped by the
`continue`, leaving the script unchanged at that step; hence a fold over
keys that are all empty leaves the script untouched. -/
lemma foldl_substituteKey_empty (mods : List Module) :
    ∀ (keys : List String) (script : String),
      (∀ k ∈ keys, sumModuleKey mods k = []) →
      keys.foldl (substituteKey mods) script = script := by
  intro keys
  induction keys with
  | nil => intro script _; rfl
  | cons k ks ih =>
    intro script h
    have hk : substituteKey mods script k = script := by
      unfold substituteKey
      rw [h k (List.mem_cons_self _ _)]
      simp
    rw [List.foldl_cons, hk]
    exact ih script (fun k' hk' => h k' (List.mem_cons_of_mem _ hk'))

/-- When every declared category key has an empty merged URL list — in
particular when no modules are selected at all — the materialized script
equals the raw script: every placeholder stays in place. -/
lemma substitutePlaceholders_of_empty (t : Template) (mods : List Module) (script : String)
    (h : ∀ k ∈ t.fileTypes, sumModuleKey mods k = []) :
    substitutePlaceholders t mods script = script := by
  unfold substitutePlaceholders
  by_cases hg : t.fileTypes ≠ [] ∧ mods ≠ []
  · rw [if_pos hg]
    exact foldl_substituteKey_empty mods t.fileTypes script h
  · rw [if_neg hg]

/-- A template declaring one category, used to exhibit the skipped
substitution. -/
def exTemplateC2 : Template :=
  { description := none
    environment := []
    fileTypes := ["models"]
    hash := none
    name := "flux"
    runType := none
    script := some "provision.sh"
    size := 10 ^ 9
    tag := none }

/-- C2 counterexample: with the declared category `models` and an empty
module selection, the materialized script still contains the literal
placeholder token for `models` — the claim that no literal placeholder
survives is false on the code. -/
theorem C2_counterexample :
    containsPlaceholder
      (substitutePlaceholders exTemplateC2 [] "\x7b\x7b MODELS \x7d\x7d") "models" = true := by
  decide

/-- C2 (amended): a category placeholder is substituted only when the
template declares categories, at least one module is selected, and the
merged URL list for that category is non-empty; whenever every declared
category has an empty merged list — in particular for the empty module
selection — the script is returned unchanged, every declared placeholder
left in place as a literal token. -/
theorem C2_empty_categories_keep_placeholders
    (t : Template) (mods : List Module) (script : String)
    (h : ∀ k ∈ t.fileTypes, sumModuleKey mods k = []) :
    substitutePlaceholders t mods script = script :=
  substitutePlaceholders_of_empty t mods script h

/-- Witness for C2 (amended): the single declared category of
`exTemplateC2` merges to the empty list under the empty selection, and
the script text survives unchanged. -/
theorem C2_witness :
    (∀ k ∈ exTemplateC2.fileTypes, sumModuleKey [] k = []) ∧
    substitutePlaceholders exTemplateC2 [] "echo hello" = "echo hello" :=
  ⟨by decide, C2_empty_categories_keep_placeholders exTemplateC2 [] "echo hello" (by decide)⟩

/-- An offer whose catalog-reported total hourly cost sits under the
budget while the cost recomputed from the requested disk size does not:
compute 3 $/hr, disk rate 1 $/hr per ten GB, catalog total 3 $/hr. -/
def exOfferC3 : Offer :=
  { direct_port_count := 8
    disk_bw := 1000
    dlperf_per_dphtotal := 1
    end_date := 1700000000
    geolocation := "US"
    gpu_name := "RTX 3090"
    gpu_ram := 24000
    id := 101
    inet_down := 1000
    search := { gpuCostPerHour := 3, diskHour := 1, totalHour := 3 } }

/-- C3 counterexample: with a budget of 4 $/hr and a requested disk of
2 * 10^10 bytes, the filter keeps `exOfferC3` because its catalog total
(3) is under budget, even though the recomputed total hourly cost
(3 + 1 * 2 = 5) exceeds the budget — so the filter does use the
catalog-reported total verbatim, contrary to the claim. -/
theorem C3_counterexample :
    filterOffers 4 [exOfferC3] = [exOfferC3] ∧
    runningHourlyCost exOfferC3 (2 * 10 ^ 10) > 4 := by
  constructor
  · have h1 : rtx5000Test exOfferC3.gpu_name = false := by decide
    have h2 : decide (exOfferC3.search.totalHour ≤ (4 : ℚ)) = true := by
      simp only [exOfferC3, decide_eq_true_eq]
      norm_num
    simp [filterOffers, List.filter_cons, h1, h2]
  · simp only [runningHourlyCost, hourlyDiskCost, exOfferC3]
    norm_num

/-- C3 (amended): the client-side filter is exactly the conjunction of
the denylist-regex test on the GPU name and the comparison of the
catalog-reported `search.totalHour` — not any recomputed cost — against
the maximum hourly budget. -/
theorem C3_budget_filter_uses_catalog_total
    (b : ℚ) (offers : List Offer) (o : Offer) :
    o ∈ filterOffers b offers ↔
      o ∈ offers ∧ rtx5000Test o.gpu_name = false ∧ o.search.totalHour ≤ b := by
  unfold filterOffers
  simp only [List.mem_filter, decide_eq_true_eq, Bool.not_eq_true']
  tauto

/-- A template named `alpha` with no declared categories. -/
def exTemplateC4 : Template :=
  { description := none
    environment := []
    fileTypes := []
    hash := some "h"
    name := "alpha"
    runType := none
    script := none
    size := 10 ^ 9
    tag := none }

/-- A module owned by template `beta`, not `alpha`. -/
def exModuleC4 : Module :=
  { description := ""
    files := [("models", ["https://example.com/a.safetensors"])]
    name := "mod"
    template := "beta" }

/-- C4 counterexample: passing a module owned by a different template
does not produce an error and does not exit nonzero — `chooseModules`
simply yields an empty choice list, the module silently dropped. -/
theorem C4_counterexample :
    chooseModulesResult exTemplateC4 [exModuleC4] (fun _ => .ok none) = .ok [] := rfl

/-- Mismatched modules are dropped before any probing, so the choice
construction agrees with the one applied to the pre-filtered list. -/
lemma moduleChoices_filter_eq (t : Template) (probe : String → Except Unit (Option Nat)) :
    ∀ mods : List Module,
      moduleChoices t probe mods =
        moduleChoices t probe (mods.filter (fun m => m.template == t.name)) := by
  intro mods
  induction mods with
  | nil => rfl
  | cons m rest ih =>
    by_cases hm : m.template = t.name
    · rw [List.filter_cons_of_pos (by simp [hm])]
      simp only [moduleChoices]
      rw [if_neg (by simp [hm]), if_neg (by simp [hm]), ih]
    · rw [List.filter_cons_of_neg (by simp [hm])]
      simp only [moduleChoices]
      rw [if_pos (by simpa using hm)]
      exact ih

/-- C4 (amended): a module whose owning template differs from the chosen
template is silently ignored: module selection behaves exactly as if the
mismatched modules were absent from the module directory — no error is
raised and no nonzero exit occurs on their account. -/
theorem C4_mismatched_module_silently_dropped
    (t : Template) (mods : List Module) (probe : String → Except Unit (Option Nat)) :
    chooseModulesResult t mods probe =
      chooseModulesResult t (mods.filter (fun m => m.template == t.name)) probe := by
  unfold chooseModulesResult
  rw [moduleChoices_filter_eq t probe mods]

/-- If the probe of a URL in the list throws, the per-category sizing
loop throws. -/
lemma sizeUrls_error (probe : String → Except Unit (Option Nat)) (u : String)
    (herr : probe u = .error ()) :
    ∀ (us : List String) (fs : List (String × Nat)) (tot : Nat), u ∈ us →
      sizeUrls probe us fs tot = .error () := by
  intro us
  induction us with
  | nil => intro fs tot h; cases h
  | cons v vs ih =>
    intro fs tot h
    simp only [sizeUrls]
    rcases List.mem_cons.mp h with h1 | h2
    · subst h1
      rw [herr]
      rfl
    · cases hv : getUrlSize (probe v) with
      | error e => cases e; rfl
      | ok n => exact ih _ _ h2

/-- If some category of the files map contains a URL whose probe throws,
the per-module sizing loop throws. -/
lemma sizeCategories_error (probe : String → Except Unit (Option Nat)) (u : String)
    (herr : probe u = .error ()) :
    ∀ (files : List (String × List String)) (fs : List (String × Nat)) (tot : Nat),
      (∃ k urls, (k, urls) ∈ files ∧ u ∈ urls) →
      sizeCategories probe files fs tot = .error () := by
  intro files
  induction files with
  | nil =>
    rintro fs tot ⟨k, urls, hmem, _⟩
    cases hmem
  | cons p rest ih =>
    rintro fs tot ⟨k, urls, hmem, hu⟩
    obtain ⟨k', urls'⟩ := p
    simp only [sizeCategories]
    rcases List.mem_cons.mp hmem with h1 | h2
    · injection h1 with hk hurls
      subst hk
      subst hurls
      rw [sizeUrls_error probe u herr urls fs tot hu]
    · cases hsz : sizeUrls probe urls' fs tot with
      | error e => cases e; rfl
      | ok pr =>
        obtain ⟨fs2, tot2⟩ := pr
        exact ih fs2 tot2 ⟨k, urls, h2, hu⟩

/-- If an applicable module contains a URL whose probe throws, the whole
choice construction throws — independently of any other failures. -/
lemma moduleChoices_error (t : Template) (probe : String → Except Unit (Option Nat))
    (m : Module) (u : String) (happ : m.template = t.name)
    (hfile : ∃ k urls, (k, urls) ∈ m.files ∧ u ∈ urls)
    (herr : probe u = .error ()) :
    ∀ mods : List Module, m ∈ mods → moduleChoices t probe mods = .error () := by
  intro mods
  induction mods with
  | nil => intro h; cases h
  | cons m' rest ih =>
    intro h
    simp only [moduleChoices]
    rcases List.mem_cons.mp h with h1 | h2
    · subst h1
      rw [if_neg (by simp [happ])]
      unfold sizeModule
      rw [sizeCategories_error probe u herr m.files [] 0 hfile]
    · by_cases hm' : m'.template ≠ t.name
      · rw [if_pos hm']
        exact ih h2
      · rw [if_neg hm']
        cases hsm : sizeModule probe m' with
        | error e => cases e; rfl
        | ok sm => rw [ih h2]

/-- A template named `gamma` used for the probe-failure scenarios. -/
def exTemplateC5 : Template :=
  { description := none
    environment := []
    fileTypes := ["models"]
    hash := some "h5"
    name := "gamma"
    runType := none
    script := some "provision.sh"
    size := 10 ^ 9
    tag := none }

/-- A module owned by `gamma` with one remote resource. -/
def exModuleC5 : Module :=
  { description := ""
    files := [("models", ["https://mirror.test/big.safetensors"])]
    name := "mod5"
    template := "gamma" }

/-- C5 counterexample: a probe that throws a network error makes
`chooseModules` take its catch branch and call `process.exit(1)` — the
whole module selection aborts, contradicting the claim that a single
failed probe never aborts it. -/
theorem C5_counterexample :
    chooseModulesResult exTemplateC5 [exModuleC5] (fun _ => .error ()) = .error 1 := rfl

/-- C5 (amended): a probe whose response merely lacks a content length
degrades to a zero-byte contribution and resolution continues; but a
probe that throws (a network error) is not caught per resource — it
aborts the whole module selection, the process exiting with code 1. -/
theorem C5_probe_failure_behavior
    (t : Template) (mods : List Module) (probe : String → Except Unit (Option Nat))
    (m : Module) (u : String)
    (hm : m ∈ mods) (happ : m.template = t.name)
    (hfile : ∃ k urls, (k, urls) ∈ m.files ∧ u ∈ urls)
    (herr : probe u = .error ()) :
    getUrlSize (.ok none) = .ok 0 ∧
    chooseModulesResult t mods probe = .error 1 := by
  refine ⟨rfl, ?_⟩
  unfold chooseModulesResult
  rw [moduleChoices_error t probe m u happ hfile herr mods hm]

/-- A probe that throws on every URL. -/
def exProbeC5 : String → Except Unit (Option Nat) := fun _ => .error ()

/-- Witness for C5 (amended): the concrete `gamma` template, its module
and the throwing probe satisfy every hypothesis, and selection aborts
with exit code 1. -/
theorem C5_witness :
    (exModuleC5 ∈ [exModuleC5] ∧ exModuleC5.template = exTemplateC5.name ∧
      (∃ k urls, (k, urls) ∈ exModuleC5.files ∧
        "https://mirror.test/big.safetensors" ∈ urls) ∧
      exProbeC5 "https://mirror.test/big.safetensors" = .error ()) ∧
    getUrlSize (.ok none) = .ok 0 ∧
    chooseModulesResult exTemplateC5 [exModuleC5] exProbeC5 = .error 1 :=
  ⟨⟨List.mem_cons_self _ _, rfl,
      ⟨"models", ["https://mirror.test/big.safetensors"], List.mem_cons_self _ _,
        List.mem_cons_self _ _⟩, rfl⟩,
    C5_probe_failure_behavior exTemplateC5 [exModuleC5] exProbeC5 exModuleC5
      "https://mirror.test/big.safetensors" (List.mem_cons_self _ _) rfl
      ⟨"models", ["https://mirror.test/big.safetensors"], List.mem_cons_self _ _,
        List.mem_cons_self _ _⟩ rfl⟩

/-- A template declaring neither a content hash nor a base-image tag. -/
def exTemplateC6 : Template :=
  { description := none
    environment := []
    fileTypes := []
    hash := none
    name := "bare"
    runType := none
    script := none
    size := 10 ^ 9
    tag := none }

/-- C6 counterexample: for a template declaring neither image-selection
field the builder still produces a payload — one that carries neither
the content-hash reference nor the image tag — instead of failing fast
with a configuration error as the claim requires. -/
theorem C6_counterexample :
    (buildRequest exTemplateC6 [] (10 ^ 9)).template_hash_id = none ∧
    (buildRequest exTemplateC6 [] (10 ^ 9)).image = none :=
  ⟨rfl, rfl⟩

/-- C6 (amended): the payload carries the content-hash reference exactly
when the template declares a truthy hash; otherwise the image tag when
the template declares a truthy tag; otherwise neither field — and never
both, a template declaring both silently resolving to the hash.  No
configuration error is raised in the neither or both cases. -/
theorem C6_request_image_selection
    (t : Template) (env : List (String × String)) (d : Nat) :
    (buildRequest t env d).template_hash_id =
      (if jsTruthyStr t.hash then t.hash else none) ∧
    (buildRequest t env d).image =
      (if jsTruthyStr t.hash then none
       else if jsTruthyStr t.tag then t.tag else none) ∧
    ¬((buildRequest t env d).template_hash_id.isSome = true ∧
      (buildRequest t env d).image.isSome = true) := by
  unfold buildRequest
  cases h1 : jsTruthyStr t.hash with
  | true => simp
  | false =>
    cases h2 : jsTruthyStr t.tag with
    | true =>
      refine ⟨by simp, by simp, ?_⟩
      simp only [Bool.false_eq_true, if_false, if_true]
      simp
    | false => simp

/-- A non-success paste-service response: HTTP 422 with a pastebin
error-message body. -/
def exRespC8 : HttpResponse :=
  { ok := false
    status := 422
    text := "Bad API request, invalid api_dev_key" }

/-- C8 counterexample: a non-success paste-service response is not
detected — its body text (here a pastebin error message, which contains
no share URL to rewrite) is returned as though it were the reference
URL, instead of being propagated as an unrecoverable failure. -/
theorem C8_counterexample :
    publishScript (.ok exRespC8) = .ok "Bad API request, invalid api_dev_key" := rfl

/-- A successful paste upload whose body is the share-page URL. -/
def exShareRespC8 : HttpResponse :=
  { ok := true
    status := 200
    text := "https://pastebin.com/AbCdEfGh" }

/-- C8 (amended): a thrown network error during the upload is reported
and exits the process with code 1; but any received response — success
or not, its status never inspected — has its body text returned as the
script reference after rewriting the first `pastebin.com/` into
`pastebin.com/raw/`, so a share-page URL response is turned into its
raw-content form. -/
theorem C8_publish_failure_behavior :
    publishScript (.error ()) = .error 1 ∧
    (∀ resp : HttpResponse, ∃ s, publishScript (.ok resp) = .ok s) ∧
    publishScript (.ok exShareRespC8) = .ok "https://pastebin.com/raw/AbCdEfGh" :=
  ⟨rfl, fun _ => ⟨_, rfl⟩, rfl⟩

/-- A template declaring only the `models` category. -/
def exTemplateC10 : Template :=
  { description := none
    environment := []
    fileTypes := ["models"]
    hash := some "h10"
    name := "delta"
    runType := none
    script := some "provision.sh"
    size := 10 ^ 9
    tag := none }

/-- A module owned by `delta` whose only resource lives in a category
the template does not declare. -/
def exModuleC10 : Module :=
  { description := ""
    files := [("extra_models", ["https://mirror.test/extra.safetensors"])]
    name := "mod10"
    template := "delta" }

/-- A probe reporting five bytes for every URL. -/
def exProbeC10 : String → Except Unit (Option Nat) := fun _ => .ok (some 5)

/-- C10: a resource kept in a category absent from the template
`fileTypes` list is still probed and billed — the sized module records
it and the resolved disk size grows by its probed size — while script
materialization substitutes only declared categories, so the script is
left unchanged and the resource never appears in it. -/
theorem C10_undeclared_category_billed_never_scripted
    (t : Template) (m : Module) (k u : String) (sz : Nat) (script : String)
    (probe : String → Except Unit (Option Nat))
    (hm : m.template = t.name) (hk : k ∉ t.fileTypes)
    (hf : m.files = [(k, [u])]) (hp : probe u = .ok (some sz)) :
    chooseModulesResult t [m] probe = .ok [⟨m, [(u, sz)], sz⟩] ∧
    resolveDiskSize t.size [[(u, sz)]] = roundUpToGB (t.size + sz) ∧
    substitutePlaceholders t [m] script = script := by
  refine ⟨?_, ?_, ?_⟩
  · unfold chooseModulesResult
    simp only [moduleChoices]
    rw [if_neg (by simp [hm])]
    unfold sizeModule
    rw [hf]
    simp only [sizeCategories, sizeUrls]
    rw [hp]
    simp [getUrlSize, mapSet]
  · simp [resolveDiskSize, dedupStep]
  · apply substitutePlaceholders_of_empty
    intro k' hk'
    have hne : (k == k') = false := by
      refine beq_eq_false_iff_ne.mpr ?_
      intro he
      exact hk (he ▸ hk')
    simp [sumModuleKey, lookupFiles, hf, List.find?, hne, firstDedup, firstDedupAux]

/-- Witness for C10: the `delta` template with declared category
`models`, a module whose only resource is filed under the undeclared
`extra_models` category, and a probe reporting five bytes. -/
theorem C10_witness :
    (exModuleC10.template = exTemplateC10.name ∧
      "extra_models" ∉ exTemplateC10.fileTypes ∧
      exModuleC10.files = [("extra_models", ["https://mirror.test/extra.safetensors"])] ∧
      exProbeC10 "https://mirror.test/extra.safetensors" = .ok (some 5)) ∧
    chooseModulesResult exTemplateC10 [exModuleC10] exProbeC10 =
      .ok [⟨exModuleC10, [("https://mirror.test/extra.safetensors", 5)], 5⟩] ∧
    resolveDiskSize exTemplateC10.size [[("https://mirror.test/extra.safetensors", 5)]] =
      roundUpToGB (exTemplateC10.size + 5) ∧
    substitutePlaceholders exTemplateC10 [exModuleC10] "echo hi" = "echo hi" :=
  ⟨⟨rfl, by decide, rfl, rfl⟩,
    C10_undeclared_category_billed_never_scripted exTemplateC10 exModuleC10
      "extra_models" "https://mirror.test/extra.safetensors" 5 "echo hi" exProbeC10
      rfl (by decide) rfl rfl⟩

end ComfyProvisioner
